import Mathlib

/-!
Shallow embedding of the AI-Deep-Search core pipeline: the classifier
retry/fallback discipline (src/app/llm_client.py), the listing analyzer
enhancement (src/app/listing_analyzer.py), the inclusion/exclusion filter
(src/app/filters.py), the deduplicating store (src/app/data_manager.py),
the agent search loop (src/app/agent.py) and the coordinator round-robin
assignment (src/app/coordinator.py).  Python dictionaries produced by the
backend are modelled as records of Option fields (none = key absent);
machine strings are Lean String over ASCII, matching the Python inputs.
-/

namespace DeepSearch

/-! ### ASCII string helpers mirroring Python str.lower, str.upper and the
substring operator.  All text in the repository is ASCII, where the Python
operations agree with these character-wise definitions. -/

/-- ASCII lower-casing of one character, as Python str.lower does on ASCII. -/
def lcChar (c : Char) : Char :=
  if 'A' ≤ c ∧ c ≤ 'Z' then Char.ofNat (c.toNat + 32) else c

/-- ASCII upper-casing of one character, as Python str.upper does on ASCII. -/
def ucChar (c : Char) : Char :=
  if 'a' ≤ c ∧ c ≤ 'z' then Char.ofNat (c.toNat - 32) else c

/-- Python s.lower() on ASCII text. -/
def strLower (s : String) : String := String.mk (s.data.map lcChar)

/-- Python s.upper() on ASCII text. -/
def strUpper (s : String) : String := String.mk (s.data.map ucChar)

/-- Character-list version of take-the-front matching. -/
def chFront : List Char → List Char → Bool
  | [], _ => true
  | _ :: _, [] => false
  | a :: as, b :: bs => a == b && chFront as bs

/-- Character-list substring search. -/
def chSub (n : List Char) : List Char → Bool
  | [] => n.isEmpty
  | b :: bs => chFront n (b :: bs) || chSub n bs

/-- Python needle in hay substring containment. -/
def strIn (needle hay : String) : Bool := chSub needle.data hay.data

/-! ### The classification verdict (src/app/llm_client.py)

The backend returns a parsed JSON dictionary.  It is modelled as a record
whose fields are Option values: none means the key is absent from the
dictionary.  For the keys whose value may be JSON null (model_number,
price, condition) the payload is itself an Option, so some none is a key
present with value null. -/

structure RawVerdict where
  «matches» : Option Bool
  activation_lock_mentioned : Option Bool
  activation_lock_type : Option String
  model_number : Option (Option String)
  has_exclusions : Option Bool
  exclusion_reasons : Option (List String)
  price : Option (Option String)
  condition : Option (Option String)
  confidence : Option ℚ
  reasoning : Option String
  deriving DecidableEq, Repr

/-- Every key of the ClassificationVerdict schema is present. -/
def isFull (v : RawVerdict) : Bool :=
  v.«matches».isSome && v.activation_lock_mentioned.isSome &&
  v.activation_lock_type.isSome && v.model_number.isSome &&
  v.has_exclusions.isSome && v.exclusion_reasons.isSome &&
  v.price.isSome && v.condition.isSome &&
  v.confidence.isSome && v.reasoning.isSome

/-- The fixed activation-lock keyword list of LLMClient._default_analysis. -/
def activation_keywords : List String :=
  ["activation lock", "icloud lock", "locked", "can\x27t unlock",
   "previous owner", "for parts", "as-is"]

/-- The fixed exclusion keyword list of LLMClient._default_analysis. -/
def exclusion_keywords : List String :=
  ["broken screen", "bad battery", "cracked", "not working",
   "damaged screen", "dead battery"]

/-- LLMClient._default_analysis: the deterministic keyword fallback used
when the backend fails.  Confidence 0.5 is the rational 1/2. -/
def default_analysis (title description : String) : RawVerdict :=
  let text_lower := strLower (title ++ " " ++ description)
  let has_activation := activation_keywords.any (fun kw => strIn kw text_lower)
  let has_excl := exclusion_keywords.any (fun kw => strIn kw text_lower)
  { «matches» := some (has_activation && !has_excl)
    activation_lock_mentioned := some has_activation
    activation_lock_type := some (if has_activation then "implicit" else "none")
    model_number := some none
    has_exclusions := some has_excl
    exclusion_reasons := some (exclusion_keywords.filter (fun kw => strIn kw text_lower))
    price := some none
    condition := some none
    confidence := some (mkRat 1 2)
    reasoning := some "Fallback analysis due to LLM error" }

/-! ### The retry loop of LLMClient.analyze_listing

One backend attempt either raises a transport/HTTP/shape exception (exn),
yields a response whose content is unparseable even after stripping a
fenced code block (badJson), or yields a parsed dictionary (goodJson). -/

inductive Outcome where
  | exn : Outcome
  | badJson : Outcome
  | goodJson : RawVerdict → Outcome
  deriving DecidableEq

/-- Whether an attempt produced a parsed dictionary. -/
def Outcome.isGood : Outcome → Bool
  | goodJson _ => true
  | _ => false

/-- The literal max_retries = 3 of LLMClient.analyze_listing. -/
def max_retries : Nat := 3

/-- The for-attempt loop of analyze_listing.  rem is the number of
remaining attempts, calls the number of backend calls made so far (which
is also the index of the current attempt).  The rem = 0 base case is the
return after the loop, unreachable from max_retries because the last
attempt always returns.  The pair carries the verdict together with the
total number of backend calls. -/
def attemptLoop (outcomes : Nat → Outcome) (title description : String) :
    Nat → Nat → RawVerdict × Nat
  | 0, calls => (default_analysis title description, calls)
  | rem + 1, calls =>
    match outcomes calls with
    | .goodJson v => (v, calls + 1)
    | _ =>
      if rem = 0 then (default_analysis title description, calls + 1)
      else attemptLoop outcomes title description rem (calls + 1)

/-- LLMClient.analyze_listing: up to max_retries backend attempts, the
parsed dictionary returned as-is on success, the deterministic fallback
on final failure.  Returns the verdict and the number of backend calls. -/
def analyze_listing (outcomes : Nat → Outcome) (title description : String) :
    RawVerdict × Nat :=
  attemptLoop outcomes title description max_retries 0

/-! ### The inclusion/exclusion filter (src/app/filters.py) -/

/-- The stored state of a ListingFilter: model numbers upper-cased and
exclusions lower-cased by the constructor. -/
structure ListingFilter where
  model_numbers : List String
  exclusions : List String
  require_activation_lock : Bool
  deriving DecidableEq

/-- ListingFilter.__init__: upper-cases the model numbers and lower-cases
the exclusion terms. -/
def mkListingFilter (model_numbers exclusions : List String)
    (require_activation_lock : Bool) : ListingFilter :=
  { model_numbers := model_numbers.map strUpper
    exclusions := exclusions.map strLower
    require_activation_lock := require_activation_lock }

/-- llm_analysis.get of the model_number key with default empty string,
collapsed through Python truthiness: both an absent key and a null value
behave as the empty string at the if listing_model test. -/
def extractedModel (v : RawVerdict) : String :=
  match v.model_number with
  | some (some s) => s
  | _ => ""

/-- ListingFilter.should_include, the fixed-precedence decision:
exclusions first, then the required activation lock, then the model-number
check (only entered when the verdict carries a truthy model number), then
the matches flag of the verdict. -/
def should_include (f : ListingFilter) (title description : String)
    (v : RawVerdict) : Bool × String :=
  if v.has_exclusions.getD false then
    (false, "Contains exclusions: " ++
      String.intercalate ", " (v.exclusion_reasons.getD []))
  else if f.require_activation_lock && !(v.activation_lock_mentioned.getD false) then
    (false, "No activation lock mentioned")
  else
    let modelMismatch :=
      if f.model_numbers.isEmpty then none
      else
        let listing_model := extractedModel v
        if listing_model = "" then none
        else
          let lm := strUpper listing_model
          let fuzzy := f.model_numbers.any fun t => strIn t lm || strIn lm t
          let title_desc := strUpper (title ++ " " ++ description)
          let inText := f.model_numbers.any fun t => strIn t title_desc
          if fuzzy || inText then none
          else some ("Model number mismatch (looking for: " ++
            String.intercalate ", " f.model_numbers ++ ")")
    match modelMismatch with
    | some reason => (false, reason)
    | none =>
      if !(v.«matches».getD false) then
        (false, v.reasoning.getD "LLM analysis indicates no match")
      else
        (true, "Matches all criteria")

/-! ### The deduplicating store (src/app/data_manager.py)

DataManager.add_listing reads only the link, title, price and seller keys
of the merged dictionary to decide duplication, so a persisted entry is
modelled by those four fields.  The md5 digest of _generate_hash is a
function of the concatenation title ++ price ++ seller alone; the model
uses the concatenation itself as the digest, which identifies exactly the
same pairs of entries as md5 does (up to md5 collisions, disregarded). -/

structure Entry where
  link : String
  title : String
  price : String
  seller : String
  deriving DecidableEq

/-- The in-memory dedup state plus the appended CSV rows. -/
structure DataManagerState where
  seen_urls : List String
  seen_hashes : List String
  rows : List Entry
  deriving DecidableEq

/-- DataManager._generate_hash: digest of title ++ price ++ seller. -/
def generate_hash (e : Entry) : String := e.title ++ e.price ++ e.seller

/-- DataManager.is_duplicate: URL seen before, or fingerprint seen before. -/
def is_duplicate (st : DataManagerState) (e : Entry) : Bool :=
  st.seen_urls.contains e.link || st.seen_hashes.contains (generate_hash e)

/-- DataManager.add_listing: false on duplicate; otherwise records the URL
(even when empty) and the fingerprint, appends one CSV row, returns true. -/
def add_listing (st : DataManagerState) (e : Entry) : DataManagerState × Bool :=
  if is_duplicate st e then (st, false)
  else
    ({ seen_urls := e.link :: st.seen_urls
       seen_hashes := generate_hash e :: st.seen_hashes
       rows := st.rows ++ [e] }, true)

/-- A sequence of add_listing calls, keeping only the state. -/
def add_all (st : DataManagerState) (es : List Entry) : DataManagerState :=
  es.foldl (fun s e => (add_listing s e).1) st

/-! ### The coordinator round-robin assignment (src/app/coordinator.py) -/

/-- AgentCoordinator.start_search assigns agent agent_id the model number
model_numbers[agent_id % len(model_numbers)]. -/
def assigned_model (model_numbers : List String) (agent_id : Nat) : String :=
  model_numbers.getD (agent_id % model_numbers.length) ""

/-- The full assignment list produced by the creation loop of
start_search for agent ids 0, 1, ..., agent_count - 1. -/
def start_search_assignments (model_numbers : List String)
    (agent_count : Nat) : List String :=
  (List.range agent_count).map (assigned_model model_numbers)

/-! ### The agent search loop (src/app/agent.py)

The raw listing dictionaries extracted by the browser carry the keys
title, link, price, condition, shipping, seller, description and
full_text (src/app/browser.py, _extract_listing_data). -/

structure Listing where
  title : String
  link : String
  price : String
  condition : String
  seller : String
  description : String
  full_text : String
  deriving DecidableEq

/-- The counters of SearchAgent.stats. -/
structure AgentStats where
  pages_searched : Nat
  listings_analyzed : Nat
  listings_added : Nat
  errors : Nat
  deriving DecidableEq

/-- The mutable agent state: the two control flags, the counters and the
shared store. -/
structure AgentState where
  is_running : Bool
  is_paused : Bool
  stats : AgentStats
  dm : DataManagerState
  deriving DecidableEq

/-- Control position inside the page loop of SearchAgent._search_ebay.
pageTop carries the local pages_searched loop variable; listingLoop the
remaining listings of the current page; afterListings the point right
after the for loop where the page counters advance and the next page is
sought. -/
inductive Ctrl where
  | pageTop : Nat → Ctrl
  | listingLoop : Nat → List Listing → Ctrl
  | afterListings : Nat → Ctrl
  | done : Ctrl
  deriving DecidableEq

/-- The external world the loop interacts with: the shared filter, the
configured page limit, the listings the browser extracts for each page
index, the detail fetch used to enrich an empty description, the verdict
the classifier produces for an enriched listing (the classifier never
fails outward), and the pagination and captcha observations per page. -/
structure AgentEnv where
  filter : ListingFilter
  maxPages : Nat
  pageListings : Nat → List Listing
  details : Listing → String × String
  verdict : Listing → RawVerdict
  hasNext : Nat → Bool
  clickNextOk : Nat → Bool
  captchaAfterNav : Nat → Bool

/-- The enrichment step of _process_listing: when the description is
empty, fetch description and full_text from the item page. -/
def enrich (env : AgentEnv) (l : Listing) : Listing :=
  if l.description = "" then
    { l with description := (env.details l).1, full_text := (env.details l).2 }
  else l

/-- ListingAnalyzer.analyze sets analysis price to the verdict price when
that is truthy and otherwise to the listing price, so the merged
dictionary built in _process_listing carries this value under the price
key. -/
def analyzed_price (l : Listing) (v : RawVerdict) : String :=
  match v.price with
  | some (some s) => if s = "" then l.price else s
  | _ => l.price

/-- The merged record+verdict dictionary submitted to the store,
restricted to the keys the store reads: link, title and seller come from
the listing (the analyzer copies them unchanged), price from the
analyzer. -/
def merged_entry (l : Listing) (v : RawVerdict) : Entry :=
  { link := l.link, title := l.title, seller := l.seller
    price := analyzed_price l v }

/-- SearchAgent._process_listing: count the analysis, enrich, classify,
filter, and on inclusion submit to the store, counting a successful add.
No exception arises in the pure model, so the errors counter is
untouched here. -/
def process_listing (env : AgentEnv) (l : Listing) (s : AgentState) : AgentState :=
  let s := { s with stats := { s.stats with
               listings_analyzed := s.stats.listings_analyzed + 1 } }
  let le := enrich env l
  let v := env.verdict le
  let d := should_include env.filter le.title le.description v
  if d.1 then
    let r := add_listing s.dm (merged_entry le v)
    let s := { s with dm := r.1 }
    if r.2 then
      { s with stats := { s.stats with
          listings_added := s.stats.listings_added + 1 } }
    else s
  else s

/-- One internal step of the page loop of _search_ebay.  At the top of
the page loop the loop condition is checked first, then the paused flag
(sleep and continue, changing nothing); the per-listing for loop checks
only the running flag before each listing; after the listings the page
counters advance and pagination decides whether the loop continues, with
a captcha after navigation setting the paused flag and leaving the loop. -/
def stepAgent (env : AgentEnv) : Ctrl → AgentState → Ctrl × AgentState
  | .pageTop n, s =>
    if s.is_running ∧ n < env.maxPages then
      if s.is_paused then (.pageTop n, s)
      else
        match env.pageListings n with
        | [] => (.done, s)
        | l :: rest => (.listingLoop n (l :: rest), s)
    else (.done, s)
  | .listingLoop n ls, s =>
    match ls with
    | [] => (.afterListings n, s)
    | l :: rest =>
      if s.is_running then (.listingLoop n rest, process_listing env l s)
      else (.afterListings n, s)
  | .afterListings n, s =>
    let s := { s with stats := { s.stats with
                 pages_searched := s.stats.pages_searched + 1 } }
    if env.hasNext n then
      if env.clickNextOk n then
        if env.captchaAfterNav n then (.done, { s with is_paused := true })
        else (.pageTop (n + 1), s)
      else (.done, s)
    else (.done, s)
  | .done, s => (.done, s)

/-- An event of a run: either one of the external control calls pause,
resume and stop of SearchAgent, which may arrive at any suspension point,
or one internal step of the loop. -/
inductive AgentEvent where
  | pause : AgentEvent
  | resume : AgentEvent
  | stop : AgentEvent
  | tick : AgentEvent
  deriving DecidableEq

/-- Apply one event to a configuration. -/
def applyEvent (env : AgentEnv) (cs : Ctrl × AgentState) :
    AgentEvent → Ctrl × AgentState
  | .pause => (cs.1, { cs.2 with is_paused := true })
  | .resume => (cs.1, { cs.2 with is_paused := false })
  | .stop => (cs.1, { cs.2 with is_running := false, is_paused := false })
  | .tick => stepAgent env cs.1 cs.2

/-- Run a sequence of events from a configuration. -/
def runAgent (env : AgentEnv) (cs : Ctrl × AgentState)
    (evs : List AgentEvent) : Ctrl × AgentState :=
  evs.foldl (applyEvent env) cs

/-! ### Concrete instances used by the verification theorems -/

/-- A verdict carrying exclusions together with every acceptance signal. -/
def vC1 : RawVerdict :=
  { «matches» := some true
    activation_lock_mentioned := some true
    activation_lock_type := some "explicit"
    model_number := some (some "A1706")
    has_exclusions := some true
    exclusion_reasons := some ["cracked", "broken screen"]
    price := some none
    condition := some none
    confidence := some (mkRat 9 10)
    reasoning := some "cracked" }

/-- A verdict with a null model_number that passes the exclusion and
activation-lock rules and is marked as a match by the backend. -/
def vC2 : RawVerdict :=
  { «matches» := some true
    activation_lock_mentioned := some true
    activation_lock_type := some "explicit"
    model_number := some none
    has_exclusions := some false
    exclusion_reasons := some []
    price := some none
    condition := some none
    confidence := some (mkRat 9 10)
    reasoning := some "looks right" }

/-- A verdict extracted with model number A1398, matching no target. -/
def vMismatch : RawVerdict :=
  { «matches» := some true
    activation_lock_mentioned := some false
    activation_lock_type := some "none"
    model_number := some (some "A1398")
    has_exclusions := some false
    exclusion_reasons := some []
    price := some none
    condition := some none
    confidence := some (mkRat 9 10)
    reasoning := some "wrong model" }

/-- The parsed dictionary with every key absent: a backend success the
code returns unvalidated. -/
def emptyRaw : RawVerdict :=
  { «matches» := none
    activation_lock_mentioned := none
    activation_lock_type := none
    model_number := none
    has_exclusions := none
    exclusion_reasons := none
    price := none
    condition := none
    confidence := none
    reasoning := none }

/-- A verdict that the filter accepts under the permissive filter below. -/
def vOk : RawVerdict :=
  { «matches» := some true
    activation_lock_mentioned := some true
    activation_lock_type := some "explicit"
    model_number := some none
    has_exclusions := some false
    exclusion_reasons := some []
    price := some none
    condition := some none
    confidence := some (mkRat 1 2)
    reasoning := some "ok" }

/-- First listing of the concrete page. -/
def lA : Listing :=
  { title := "L1", link := "u1", price := "10", condition := "used"
    seller := "s1", description := "d1", full_text := "" }

/-- Second listing of the concrete page. -/
def lB : Listing :=
  { title := "L2", link := "u2", price := "20", condition := "used"
    seller := "s2", description := "d2", full_text := "" }

/-- A concrete agent environment: one page of two listings, a permissive
filter, a classifier that always accepts, and no further pages. -/
def envC5 : AgentEnv :=
  { filter := mkListingFilter [] [] false
    maxPages := 50
    pageListings := fun n => if n = 0 then [lA, lB] else []
    details := fun _ => ("", "")
    verdict := fun _ => vOk
    hasNext := fun _ => false
    clickNextOk := fun _ => false
    captchaAfterNav := fun _ => false }

/-- The configuration at the start of the page loop of a fresh agent. -/
def initAgent : Ctrl × AgentState :=
  (Ctrl.pageTop 0,
   { is_running := true, is_paused := false
     stats := { pages_searched := 0, listings_analyzed := 0
                listings_added := 0, errors := 0 }
     dm := { seen_urls := [], seen_hashes := [], rows := [] } })

/-! ### Verification theorems -/

/-- C1: for every filter configuration, listing text and verdict with
has_exclusions = some true, should_include excludes the listing with a
reason listing the matched exclusion terms, regardless of matches,
activation_lock_mentioned, the model identifier, or any other field —
the exclusion rule is first in the precedence order. -/
theorem C1_exclusions_first (f : ListingFilter) (title description : String)
    (v : RawVerdict) (h : v.has_exclusions = some true) :
    should_include f title description v =
      (false, "Contains exclusions: " ++
        String.intercalate ", " (v.exclusion_reasons.getD [])) := by
  simp [should_include, h]

/-- Witness for C1 at a concrete filter, listing and verdict whose other
signals all point at acceptance. -/
theorem C1_exclusions_first_witness :
    should_include (mkListingFilter ["A1706"] ["cracked"] true) "t" "d" vC1 =
      (false, "Contains exclusions: cracked, broken screen") := by
  rw [C1_exclusions_first _ _ _ _ rfl]
  decide

/-- C9: with the backend failing on every attempt, the fallback verdict
for title MacBook A1706 iCloud locked, as-is and empty description has
activation_lock_mentioned true, has_exclusions false, matches true,
confidence one half, activation_lock_type implicit and model_number
null; the function is deterministic. -/
theorem C9_fallback_verdict :
    (analyze_listing (fun _ => Outcome.exn)
        "MacBook A1706 iCloud locked, as-is" "").1 =
      { «matches» := some true
        activation_lock_mentioned := some true
        activation_lock_type := some "implicit"
        model_number := some none
        has_exclusions := some false
        exclusion_reasons := some []
        price := some none
        condition := some none
        confidence := some (mkRat 1 2)
        reasoning := some "Fallback analysis due to LLM error" } := by
  decide

/-- C8 counterexample: with targets A1706, A1707, A1932 and five agents,
agent 4 is assigned A1707, not A1706 as the claim states, because
4 mod 3 = 1. -/
theorem C8_counterexample :
    (start_search_assignments ["A1706", "A1707", "A1932"] 5).getD 4 "" = "A1707" ∧
    ("A1707" : String) ≠ "A1706" := by
  decide

/-- C8 amended: start_search assigns agent i the identifier at index
i mod len(targets); for five agents over A1706, A1707, A1932 the full
assignment is A1706, A1707, A1932, A1706, A1707 — deterministic and
reproducible — so agent 4 receives A1707 and agent 3 receives A1706. -/
theorem C8_round_robin :
    start_search_assignments ["A1706", "A1707", "A1932"] 5 =
      ["A1706", "A1707", "A1932", "A1706", "A1707"] := by
  decide

/-- C6 counterexample: over a store state whose seen URLs already hold
the record URL, the first Add call returns false, not true as the claim
states for every store state. -/
theorem C6_counterexample :
    (Entry.mk "u" "t" "p" "s").link ≠ "" ∧
    (add_listing (DataManagerState.mk ["u"] [] []) (Entry.mk "u" "t" "p" "s")).2 = false := by
  decide

/-- C6 amended: for every record with a non-empty URL and every store
state in which that record is not yet a duplicate, Add returns true, a
second Add of a record with the same URL returns false, and exactly one
row is appended across the two calls. -/
theorem C6_add_twice (st : DataManagerState) (e1 e2 : Entry)
    (hurl : e1.link ≠ "") (hnew : is_duplicate st e1 = false)
    (hsame : e2.link = e1.link) :
    (add_listing st e1).2 = true ∧
    (add_listing (add_listing st e1).1 e2).2 = false ∧
    (add_listing (add_listing st e1).1 e2).1.rows.length = st.rows.length + 1 := by
  have h1 : add_listing st e1 =
      ({ seen_urls := e1.link :: st.seen_urls
         seen_hashes := generate_hash e1 :: st.seen_hashes
         rows := st.rows ++ [e1] }, true) := by
    simp [add_listing, hnew]
  refine ⟨by rw [h1], ?_, ?_⟩
  · rw [h1]
    simp [add_listing, is_duplicate, hsame]
  · rw [h1]
    simp [add_listing, is_duplicate, hsame]

/-- Witness for C6 at the empty store and two concrete records sharing
the URL u. -/
theorem C6_add_twice_witness :
    (add_listing (DataManagerState.mk [] [] []) (Entry.mk "u" "t" "p" "s")).2 = true ∧
    (add_listing (add_listing (DataManagerState.mk [] [] []) (Entry.mk "u" "t" "p" "s")).1
        (Entry.mk "u" "t2" "p2" "s2")).2 = false ∧
    (add_listing (add_listing (DataManagerState.mk [] [] []) (Entry.mk "u" "t" "p" "s")).1
        (Entry.mk "u" "t2" "p2" "s2")).1.rows.length =
      (DataManagerState.mk [] [] []).rows.length + 1 :=
  C6_add_twice (DataManagerState.mk [] [] []) (Entry.mk "u" "t" "p" "s")
    (Entry.mk "u" "t2" "p2" "s2") (by decide) (by decide) rfl

/-- C7: after a store state accepts a record, a second record with the
same title, price and seller but a different URL is rejected as a
duplicate through the fingerprint, although its URL was never seen. -/
theorem C7_fingerprint_dedup (st st1 : DataManagerState) (e1 e2 : Entry)
    (hadd : add_listing st e1 = (st1, true))
    (ht : e2.title = e1.title) (hp : e2.price = e1.price)
    (hs : e2.seller = e1.seller) (hl : e2.link ≠ e1.link) :
    (add_listing st1 e2).2 = false := by
  by_cases hd : is_duplicate st e1 = true
  · simp [add_listing, hd] at hadd
  · simp only [Bool.not_eq_true] at hd
    simp [add_listing, hd] at hadd
    have hh : generate_hash e2 = generate_hash e1 := by
      simp [generate_hash, ht, hp, hs]
    have hdup : is_duplicate st1 e2 = true := by
      rw [← hadd]
      simp [is_duplicate, hh]
    simp [add_listing, hdup]

/-- Witness for C7: the empty store accepts a record, then rejects a
record with identical title, price and seller under a fresh URL. -/
theorem C7_fingerprint_dedup_witness :
    (add_listing
      (add_listing (DataManagerState.mk [] [] []) (Entry.mk "u1" "t" "p" "s")).1
      (Entry.mk "u2" "t" "p" "s")).2 = false :=
  C7_fingerprint_dedup (DataManagerState.mk [] [] []) _ (Entry.mk "u1" "t" "p" "s")
    (Entry.mk "u2" "t" "p" "s") (by simp [add_listing, is_duplicate]) rfl rfl rfl
    (by decide)

/-- Membership in the seen URLs survives any further sequence of Add
calls: add_listing only ever extends seen_urls. -/
theorem contains_seen_urls_add_all (es : List Entry) (u : String) :
    ∀ st : DataManagerState, st.seen_urls.contains u = true →
      (add_all st es).seen_urls.contains u = true := by
  induction es with
  | nil => intro st h; simpa [add_all] using h
  | cons e es ih =>
    intro st h
    have hstep : ((add_listing st e).1).seen_urls.contains u = true := by
      by_cases hd : is_duplicate st e = true
      · simpa [add_listing, hd] using h
      · simp only [Bool.not_eq_true] at hd
        simp [add_listing, hd]
        exact Or.inr (by simpa using h)
    simpa [add_all] using ih _ hstep

/-- C10: once a record with an empty URL has been accepted, the empty
string sits in the seen-URL set like any real URL, so every later Add of
a record with an empty URL is rejected as a duplicate regardless of its
title, price and seller, and regardless of the adds in between. -/
theorem C10_empty_url_dedup (st st1 : DataManagerState) (e1 : Entry)
    (h1 : e1.link = "") (hadd : add_listing st e1 = (st1, true))
    (es : List Entry) (e2 : Entry) (h2 : e2.link = "") :
    (add_listing (add_all st1 es) e2).2 = false := by
  by_cases hd : is_duplicate st e1 = true
  · simp [add_listing, hd] at hadd
  · simp only [Bool.not_eq_true] at hd
    simp [add_listing, hd] at hadd
    have hu : st1.seen_urls.contains "" = true := by
      rw [← hadd]
      simp [h1]
    have hmono := contains_seen_urls_add_all es "" st1 hu
    have hdup : is_duplicate (add_all st1 es) e2 = true := by
      simp [is_duplicate, h2]
      exact Or.inl (by simpa using hmono)
    simp [add_listing, hdup]

/-- Witness for C10: after accepting a URL-less record, a URL-less
record with entirely different title, price and seller is rejected even
with an unrelated accepted record in between. -/
theorem C10_empty_url_dedup_witness :
    (add_listing
      (add_all (add_listing (DataManagerState.mk [] [] []) (Entry.mk "" "t" "p" "s")).1
        [Entry.mk "u9" "t9" "p9" "s9"])
      (Entry.mk "" "x" "y" "z")).2 = false :=
  C10_empty_url_dedup (DataManagerState.mk [] [] [])
    (add_listing (DataManagerState.mk [] [] []) (Entry.mk "" "t" "p" "s")).1
    (Entry.mk "" "t" "p" "s") rfl (by decide)
    [Entry.mk "u9" "t9" "p9" "s9"] (Entry.mk "" "x" "y" "z") rfl

/-- C4: a classifier whose backend raises a transport error on every
call invokes the backend exactly 3 times and then returns the
deterministic fallback verdict, neither giving up earlier nor making a
fourth call. -/
theorem C4_retry_bound (outcomes : Nat → Outcome) (title description : String)
    (h : ∀ n, outcomes n = Outcome.exn) :
    analyze_listing outcomes title description =
      (default_analysis title description, 3) := by
  simp [analyze_listing, max_retries, attemptLoop, h 0, h 1, h 2]

/-- Witness for C4 at a concrete always-failing backend. -/
theorem C4_retry_bound_witness :
    analyze_listing (fun _ => Outcome.exn) "MacBook" "x" =
      (default_analysis "MacBook" "x", 3) :=
  C4_retry_bound (fun _ => Outcome.exn) "MacBook" "x" (fun _ => rfl)

/-- C3 counterexample: a successful backend attempt whose parsed JSON is
the empty dictionary is returned as-is after one call, so the returned
verdict is missing every field of the schema. -/
theorem C3_counterexample :
    analyze_listing (fun _ => Outcome.goodJson emptyRaw) "t" "d" = (emptyRaw, 1) ∧
    isFull emptyRaw = false :=
  ⟨rfl, rfl⟩

/-- C3 amended: analyze_listing always returns a verdict (it is total);
whenever no attempt yields parseable JSON, the returned verdict is the
heuristic default with every field of the schema present.  A parsed
backend response, however, is returned without validation and may carry
any subset of the fields. -/
theorem C3_fallback_fully_populated (outcomes : Nat → Outcome)
    (title description : String)
    (h : ∀ n, n < max_retries → (outcomes n).isGood = false) :
    analyze_listing outcomes title description =
      (default_analysis title description, 3) ∧
    isFull (analyze_listing outcomes title description).1 = true := by
  have step : ∀ calls rem, (outcomes calls).isGood = false →
      attemptLoop outcomes title description (rem + 1) calls =
        if rem = 0 then (default_analysis title description, calls + 1)
        else attemptLoop outcomes title description rem (calls + 1) := by
    intro calls rem hg
    cases ho : outcomes calls with
    | goodJson v => rw [ho] at hg; simp [Outcome.isGood] at hg
    | exn => simp [attemptLoop, ho]
    | badJson => simp [attemptLoop, ho]
  have e0 := step 0 2 (h 0 (by decide))
  have e1 := step 1 1 (h 1 (by decide))
  have e2 := step 2 0 (h 2 (by decide))
  norm_num at e0 e1 e2
  have key : analyze_listing outcomes title description =
      (default_analysis title description, 3) := by
    show attemptLoop outcomes title description 3 0 = _
    rw [e0, e1, e2]
  refine ⟨key, ?_⟩
  rw [key]
  rfl

/-- Witness for C3 at a concrete always-failing backend. -/
theorem C3_fallback_fully_populated_witness :
    analyze_listing (fun _ => Outcome.exn) "a" "b" =
      (default_analysis "a" "b", 3) ∧
    isFull (analyze_listing (fun _ => Outcome.exn) "a" "b").1 = true :=
  C3_fallback_fully_populated (fun _ => Outcome.exn) "a" "b" (fun _ _ => rfl)

/-- C2 counterexample: a verdict with a null model_number that passes the
exclusion and activation-lock rules, against a non-empty target set none
of whose members occurs in the listing text, is included by
should_include — the model-number check is skipped entirely when the
verdict carries no extracted model identifier. -/
theorem C2_counterexample :
    vC2.has_exclusions = some false ∧
    vC2.activation_lock_mentioned = some true ∧
    vC2.model_number = some none ∧
    (mkListingFilter ["A1706"] ["cracked"] true).model_numbers ≠ [] ∧
    strIn "A1706" (strUpper ("Dell laptop XPS" ++ " " ++ "")) = false ∧
    should_include (mkListingFilter ["A1706"] ["cracked"] true)
      "Dell laptop XPS" "" vC2 = (true, "Matches all criteria") := by
  decide

/-- C2 amended: when the configured target set is non-empty and the
verdict carries a truthy extracted model identifier, if that identifier
fuzzy-matches no configured target and no configured target occurs in
the upper-cased title and description, should_include excludes the
listing with a reason naming the configured targets.  A verdict without
an extracted model identifier skips this check. -/
theorem C2_model_mismatch (targets exclusions : List String) (reqLock : Bool)
    (title description : String) (v : RawVerdict)
    (hne : targets ≠ [])
    (hexc : v.has_exclusions.getD false = false)
    (hlock : (reqLock && !(v.activation_lock_mentioned.getD false)) = false)
    (hmodel : extractedModel v ≠ "")
    (hfuzzy : (targets.map strUpper).any
        (fun t => strIn t (strUpper (extractedModel v)) ||
          strIn (strUpper (extractedModel v)) t) = false)
    (htext : (targets.map strUpper).any
        (fun t => strIn t (strUpper (title ++ " " ++ description))) = false) :
    should_include (mkListingFilter targets exclusions reqLock)
        title description v =
      (false, "Model number mismatch (looking for: " ++
        String.intercalate ", " (targets.map strUpper) ++ ")") := by
  have hne2 : (targets.map strUpper).isEmpty = false := by
    cases targets with
    | nil => exact absurd rfl hne
    | cons a l => rfl
  simp [should_include, mkListingFilter, hexc, hlock, hmodel, hne2, hfuzzy, htext]

/-- Witness for C2 at a concrete extracted model A1398 against target
A1706 and a title mentioning neither. -/
theorem C2_model_mismatch_witness :
    should_include (mkListingFilter ["A1706"] [] false) "MacBook Pro" "" vMismatch =
      (false, "Model number mismatch (looking for: " ++
        String.intercalate ", " (["A1706"].map strUpper) ++ ")") :=
  C2_model_mismatch ["A1706"] [] false "MacBook Pro" "" vMismatch
    (by decide) (by decide) (by decide) (by decide) (by decide) (by decide)

/-- C5 counterexample: in a run that reaches the per-listing loop and is
then paused, the next internal step still processes a listing — both
listings_analyzed and listings_added increase while the agent is paused,
because the per-listing loop checks only the running flag. -/
theorem C5_counterexample :
    (runAgent envC5 initAgent [AgentEvent.tick, AgentEvent.pause]).2.is_paused = true ∧
    (runAgent envC5 initAgent
      [AgentEvent.tick, AgentEvent.pause]).2.stats.listings_analyzed = 0 ∧
    (runAgent envC5 initAgent
      [AgentEvent.tick, AgentEvent.pause]).2.stats.listings_added = 0 ∧
    (runAgent envC5 initAgent
      [AgentEvent.tick, AgentEvent.pause, AgentEvent.tick]).2.is_paused = true ∧
    (runAgent envC5 initAgent
      [AgentEvent.tick, AgentEvent.pause, AgentEvent.tick]).2.stats.listings_analyzed = 1 ∧
    (runAgent envC5 initAgent
      [AgentEvent.tick, AgentEvent.pause, AgentEvent.tick]).2.stats.listings_added = 1 := by
  decide

/-- C5 amended: the pause flag is honoured at the top of the page loop:
a paused running agent standing there takes an internal step that changes
neither control position nor state, so no listing is processed and the
counters stop increasing.  Inside the per-listing loop only the stop
flag is checked, so listings remaining on the current page are still
processed after Pause is set. -/
theorem C5_pause_checkpoint (env : AgentEnv) (n : Nat) (s : AgentState)
    (hp : s.is_paused = true) (hr : s.is_running = true)
    (hn : n < env.maxPages) :
    stepAgent env (Ctrl.pageTop n) s = (Ctrl.pageTop n, s) := by
  simp [stepAgent, hp, hr, hn]

/-- Witness for C5 at the concrete environment and a paused fresh
agent. -/
theorem C5_pause_checkpoint_witness :
    stepAgent envC5 (Ctrl.pageTop 0)
      { is_running := true, is_paused := true
        stats := { pages_searched := 0, listings_analyzed := 0
                   listings_added := 0, errors := 0 }
        dm := { seen_urls := [], seen_hashes := [], rows := [] } } =
      (Ctrl.pageTop 0,
       { is_running := true, is_paused := true
         stats := { pages_searched := 0, listings_analyzed := 0
                    listings_added := 0, errors := 0 }
         dm := { seen_urls := [], seen_hashes := [], rows := [] } }) :=
  C5_pause_checkpoint envC5 0 _ rfl rfl (by decide)

end DeepSearch
